import Mathlib

set_option maxRecDepth 8192

/-! Shallow embedding of the rust-tagfs core (src/tagfs.rs): the tag-index
data model (`TagFSEntry`, `TagFS`), the FUSE operations `readdir`, `getattr`,
`listxattr`, `getxattr`, and the native mode-to-filetype translation
(`TagFS.mode_to_filetype`).  Strings stand for `OsString`/`PathBuf` values and
byte buffers are lists of naturals; all concrete strings used below are ASCII,
so Rust's byte length `len()` coincides with the character count
`String.length`. -/

/-- File kinds of the FUSE attribute model (`fuse_mt::FileType`). -/
inductive FileType where
  | Directory
  | RegularFile
  | Symlink
  | BlockDevice
  | CharDevice
  | NamedPipe
  | Socket
  deriving DecidableEq, Repr

/-- One entry of a `readdir` listing (`fuse_mt::DirectoryEntry`). -/
structure DirectoryEntry where
  name : String
  kind : FileType
  deriving DecidableEq, Repr

/-- A component of a synthetic path as delivered by the kernel
(`std::path::Component`): the root separator or a normal component. -/
inductive Component where
  | rootDir
  | normal (s : String)
  deriving DecidableEq, Repr

/-- The FUSE attribute record (`fuse_mt::FileAttr`); timestamps are modelled
as nanoseconds since the epoch. -/
structure FileAttr where
  size : Nat
  blocks : Nat
  atime : Nat
  mtime : Nat
  ctime : Nat
  crtime : Nat
  kind : FileType
  perm : Nat
  nlink : Nat
  uid : Nat
  gid : Nat
  rdev : Nat
  flags : Nat
  deriving DecidableEq, Repr

/-- Result of an xattr operation (`fuse_mt::Xattr`): a size reply or a data
buffer of bytes. -/
inductive Xattr where
  | Size (n : Nat)
  | Data (d : List Nat)
  deriving DecidableEq, Repr

deriving instance DecidableEq for Except

/-- One tagged-file record of the index (`TagFSEntry` in src/tagfs.rs):
base name, canonical absolute path, size at scan time, and the tag set
derived from the path components between the scan root and the parent. -/
structure TagFSEntry where
  name : String
  absolute : String
  size : Nat
  tags : Finset String
  deriving DecidableEq

/-- The filesystem state (`TagFS` in src/tagfs.rs).  `tags` is the all-tags
`HashSet` of `TagFS::new` listed in its (fixed) iteration order; `attrs` is
the synthetic attribute map listed likewise. -/
structure TagFS where
  root : String
  tags : List String
  entries : List TagFSEntry
  attrs : List (String × String)

/-- The attribute map built by `TagFS::new`:
`vec![("user.tagfs.strategy", "0"), ("user.tagfs.depth", "1")]`. -/
def tagfsAttrs : List (String × String) :=
  [("user.tagfs.strategy", "0"), ("user.tagfs.depth", "1")]

/-- The union of every entry's tag set, as computed by the `flat_map`/`collect`
in `TagFS::new` (the spec's `all_tags`). -/
def allTags (entries : List TagFSEntry) : Finset String :=
  entries.foldr (fun e acc => e.tags ∪ acc) ∅

/-- The `cur_tags` computation at the head of `TagFS::readdir`: the set of
normal components of the synthetic path (also §4.3's path-to-filter
resolver). -/
def pathFilter (path : List Component) : Finset String :=
  (path.filterMap (fun c =>
    match c with
    | Component.normal t => some t
    | Component.rootDir => none)).toFinset

/-- Rust's `format!("{:?}", s)` on an `OsString`/`PathBuf` whose text needs no
escaping: the text wrapped in double quotes. -/
def debugQuote (s : String) : String := "\"" ++ s ++ "\""

/-- Rust's `.replace('/', ":")`: every slash character replaced by a colon. -/
def replaceSlash (s : String) : String :=
  String.mk (s.data.map (fun c => if c = '/' then ':' else c))

/-- The leaf entry name built in `TagFS::readdir`:
`format!("{:?} {:?}", entry.name, entry.absolute).replace('/', ":")`. -/
def leafName (e : TagFSEntry) : String :=
  replaceSlash (debugQuote e.name ++ " " ++ debugQuote e.absolute)

/-- `TagFS::readdir`: a directory entry for every all-tags member not in the
current filter, then — only when the filter is non-empty — a regular-file
entry for every indexed file whose tag set is a superset of the filter. -/
def TagFS.readdir (self : TagFS) (path : List Component) : List DirectoryEntry :=
  let cur_tags := pathFilter path
  (self.tags.filter (fun t => decide (t ∉ cur_tags))).map
      (fun t => { name := t, kind := FileType.Directory }) ++
    (if cur_tags = ∅ then []
     else
       (self.entries.filter (fun e => decide (cur_tags ⊆ e.tags))).map
         (fun e => { name := leafName e, kind := FileType.RegularFile }))

/-- The attribute TTL (`const TTL: Duration = Duration::from_secs(1)`),
in seconds. -/
def TTL : Nat := 1

/-- `TagFS::stat_to_fuse()` (no arguments): the fixed synthetic directory
stub — zero size and blocks, epoch timestamps, kind directory, mode 0755,
one link, uid/gid/rdev/flags zero. -/
def TagFS.stat_to_fuse : FileAttr :=
  { size := 0
    blocks := 0
    atime := 0
    mtime := 0
    ctime := 0
    crtime := 0
    kind := FileType.Directory
    perm := 0o755
    nlink := 1
    uid := 0
    gid := 0
    rdev := 0
    flags := 0 }

/-- `TagFS::getattr` as written in src/tagfs.rs: unconditionally
`Ok((TTL, TagFS::stat_to_fuse()))`, ignoring the path and the file handle
(the path lookup is a TODO and the real-stat branch is commented out). -/
def TagFS.getattr (_self : TagFS) (_path : List Component) (_fh : Option Nat) :
    Except Nat (Nat × FileAttr) :=
  Except.ok (TTL, TagFS.stat_to_fuse)

/-- Bytes of an ASCII string, one natural per character (Rust `as_bytes`). -/
def strBytes (s : String) : List Nat := s.data.map Char.toNat

/-- Rust's `[T]::join` with a single-byte separator: the pieces concatenated
with one `0` byte between consecutive pieces. -/
def joinSep (xs : List (List Nat)) : List Nat :=
  match xs with
  | [] => []
  | [x] => x
  | x :: rest => x ++ 0 :: joinSep rest

/-- `TagFS::listxattr`: with size zero, the sum of the raw attribute-name byte
lengths; otherwise the names joined by `0` bytes with one trailing `0` byte
pushed. -/
def TagFS.listxattr (self : TagFS) (_path : List Component) (size : Nat) : Xattr :=
  if size = 0 then
    Xattr.Size ((self.attrs.map (fun a => a.fst.length)).sum)
  else
    Xattr.Data (joinSep (self.attrs.map (fun a => strBytes a.fst)) ++ [0])

/-- `self.attrs.get(name)`: lookup of an attribute value by exact name. -/
def lookupAttr (attrs : List (String × String)) (name : String) : Option String :=
  (attrs.find? (fun a => a.fst == name)).map Prod.snd

/-- `TagFS::getxattr`: with size zero, the byte length of the named
attribute's value (zero when unknown); otherwise the value bytes (empty when
unknown). -/
def TagFS.getxattr (self : TagFS) (_path : List Component) (name : String)
    (size : Nat) : Xattr :=
  if size = 0 then
    Xattr.Size
      (match lookupAttr self.attrs name with
       | some a => a.length
       | none => 0)
  else
    Xattr.Data
      (match lookupAttr self.attrs name with
       | some v => strBytes v
       | none => [])

/-- `libc::S_IFMT`, the file-type bit mask. -/
def S_IFMT : Nat := 0o170000

/-- `libc::S_IFDIR`. -/
def S_IFDIR : Nat := 0o040000

/-- `libc::S_IFREG`. -/
def S_IFREG : Nat := 0o100000

/-- `libc::S_IFLNK`. -/
def S_IFLNK : Nat := 0o120000

/-- `libc::S_IFBLK`. -/
def S_IFBLK : Nat := 0o060000

/-- `libc::S_IFCHR`. -/
def S_IFCHR : Nat := 0o020000

/-- `libc::S_IFIFO`. -/
def S_IFIFO : Nat := 0o010000

/-- `libc::S_IFSOCK`. -/
def S_IFSOCK : Nat := 0o140000

/-- `TagFS::mode_to_filetype`: match on `mode & S_IFMT` over the seven known
patterns; the source panics on any other pattern, modelled as `none`. -/
def TagFS.mode_to_filetype (mode : Nat) : Option FileType :=
  let m := mode &&& S_IFMT
  if m = S_IFDIR then some FileType.Directory
  else if m = S_IFREG then some FileType.RegularFile
  else if m = S_IFLNK then some FileType.Symlink
  else if m = S_IFBLK then some FileType.BlockDevice
  else if m = S_IFCHR then some FileType.CharDevice
  else if m = S_IFIFO then some FileType.NamedPipe
  else if m = S_IFSOCK then some FileType.Socket
  else none

/-- Concrete index entry: an untagged file directly under the scan root. -/
def readme : TagFSEntry :=
  { name := "readme.txt", absolute := "/base/readme.txt", size := 5, tags := ∅ }

/-- Concrete index entry: a file under docs/2023. -/
def report2023 : TagFSEntry :=
  { name := "report.txt", absolute := "/base/docs/2023/report.txt", size := 10,
    tags := {"docs", "2023"} }

/-- Concrete index entry: a file under docs/2024. -/
def report2024 : TagFSEntry :=
  { name := "report.txt", absolute := "/base/docs/2024/report.txt", size := 11,
    tags := {"docs", "2024"} }

/-- A concrete mounted filesystem state, as `TagFS::new` builds it from the
spec §8 scenario tree. -/
def exampleFS : TagFS :=
  { root := "/base"
    tags := ["docs", "2023", "2024"]
    entries := [readme, report2023, report2024]
    attrs := tagfsAttrs }

example : pathFilter [Component.rootDir, Component.normal "docs"] = {"docs"} := by decide

example :
    (TagFS.readdir exampleFS [Component.rootDir]).map DirectoryEntry.name =
      ["docs", "2023", "2024"] := by decide

/-- C1: the claim says a leaf entry appears for file f iff the filter is a
subset of f's tags, so with the empty filter (the filesystem root) every
indexed file appears as a leaf.  The code evaluated at the root path: the
index contains the untagged file `readme` (empty tag set, hence a superset of
any filter), yet the root listing contains no regular-file entry at all,
because `readdir` only emits leaves when the filter is non-empty. -/
theorem readdir_empty_filter_omits_all_leaves :
    readme ∈ exampleFS.entries ∧ readme.tags = ∅ ∧
      (TagFS.readdir exampleFS [Component.rootDir]).filter
          (fun e => decide (e.kind = FileType.RegularFile)) = [] := by
  decide

/-- C2: the `readdir` result depends only on the set of distinct normal path
components — any two synthetic paths with equal component sets (permutations,
repeated components collapsed) yield an identical listing. -/
theorem readdir_depends_only_on_component_set (fs : TagFS) (p q : List Component)
    (h : pathFilter p = pathFilter q) :
    TagFS.readdir fs p = TagFS.readdir fs q := by
  simp only [TagFS.readdir, h]

/-- C2 witness: a permuted path with a repeated component yields the same
listing as its deduplicated reordering. -/
theorem readdir_depends_only_on_component_set_witness :
    TagFS.readdir exampleFS
        [Component.rootDir, Component.normal "docs", Component.normal "2023",
          Component.normal "docs"] =
      TagFS.readdir exampleFS
        [Component.rootDir, Component.normal "2023", Component.normal "docs"] :=
  readdir_depends_only_on_component_set exampleFS
    [Component.rootDir, Component.normal "docs", Component.normal "2023",
      Component.normal "docs"]
    [Component.rootDir, Component.normal "2023", Component.normal "docs"]
    (by decide)

/-- C4: the claim says `getattr` on a leaf path freshly stats the file's
`real_path` and returns the translated attributes.  The code evaluated at the
leaf path /docs/2023/report.txt: it returns the fixed synthetic directory stub
(kind directory, size 0, epoch timestamps) without consulting the index or the
native stat — the lookup is a TODO in the source. -/
theorem getattr_leaf_returns_directory_stub :
    TagFS.getattr exampleFS
        [Component.rootDir, Component.normal "docs", Component.normal "2023",
          Component.normal "report.txt"] none =
      Except.ok (TTL, TagFS.stat_to_fuse) ∧
      TagFS.stat_to_fuse.kind = FileType.Directory ∧
      TagFS.stat_to_fuse.size = 0 := by
  decide

/-- C5: the claim says `getattr` on a path that is neither a valid tag-filter
prefix nor a known leaf returns a not-found error.  The code evaluated at the
unknown path /nope (the component is not among the index's tags and matches no
entry): it returns success with the directory stub, never an error. -/
theorem getattr_unknown_path_returns_ok :
    "nope" ∉ exampleFS.tags ∧
      (∀ e ∈ exampleFS.entries, e.name ≠ "nope") ∧
      TagFS.getattr exampleFS [Component.rootDir, Component.normal "nope"] none =
        Except.ok (TTL, TagFS.stat_to_fuse) := by
  decide

/-- C6: the claim says a qualifying file's leaf entry is named its base name
(`display_name`), with a disambiguating suffix only on a collision.  The code
evaluated under filter \x7bdocs, 2023\x7d, where exactly one file qualifies (no
collision): the single leaf is not named `report.txt` but a debug-formatted
combination of the name and absolute path with slashes replaced by colons. -/
theorem readdir_leaf_name_is_debug_format :
    (((TagFS.readdir exampleFS
            [Component.rootDir, Component.normal "docs", Component.normal "2023"]).filter
          (fun e => decide (e.kind = FileType.RegularFile))).map
        DirectoryEntry.name) =
      [leafName report2023] ∧
      report2023.name = "report.txt" ∧
      leafName report2023 ≠ "report.txt" := by
  decide

/-- C3: under any filter, the directory-kind entries of `readdir` are named
exactly the tags of `all_tags` minus the filter, each once and nothing else
(for the empty filter: exactly `all_tags`).  Stated for any state whose
all-tags list is duplicate-free and whose members are the union of the
entries' tag sets, as `TagFS::new` builds it. -/
theorem readdir_dirs_are_unselected_tags (fs : TagFS) (path : List Component)
    (hnd : fs.tags.Nodup)
    (hall : fs.tags.toFinset = allTags fs.entries) :
    (((TagFS.readdir fs path).filter
          (fun e => decide (e.kind = FileType.Directory))).map DirectoryEntry.name).Nodup ∧
      (((TagFS.readdir fs path).filter
            (fun e => decide (e.kind = FileType.Directory))).map DirectoryEntry.name).toFinset =
        allTags fs.entries \ pathFilter path := by
  have hsplit :
      ((TagFS.readdir fs path).filter
            (fun e => decide (e.kind = FileType.Directory))).map DirectoryEntry.name =
        fs.tags.filter (fun t => decide (t ∉ pathFilter path)) := by
    simp [TagFS.readdir, List.filter_append, List.filter_map, Function.comp_def,
      apply_ite (List.filter (fun e : DirectoryEntry => decide (e.kind = FileType.Directory))),
      List.map_map]
  rw [hsplit]
  refine ⟨hnd.filter _, ?_⟩
  rw [List.toFinset_filter]
  ext a
  simp [Finset.mem_sdiff, ← hall]

/-- C3 witness: under the filter containing docs, the sub-directory names are
exactly all tags minus docs. -/
theorem readdir_dirs_are_unselected_tags_witness :
    (((TagFS.readdir exampleFS [Component.rootDir, Component.normal "docs"]).filter
          (fun e => decide (e.kind = FileType.Directory))).map DirectoryEntry.name).Nodup ∧
      (((TagFS.readdir exampleFS [Component.rootDir, Component.normal "docs"]).filter
            (fun e => decide (e.kind = FileType.Directory))).map DirectoryEntry.name).toFinset =
        allTags exampleFS.entries \ pathFilter [Component.rootDir, Component.normal "docs"] :=
  readdir_dirs_are_unselected_tags exampleFS [Component.rootDir, Component.normal "docs"]
    (by decide) (by decide)

/-- C7 counterexample: the claim says the zero-size `listxattr` reply equals
the summed name lengths plus one terminator byte per name for the names
tagfs.strategy and tagfs.depth, which would be 14 + 11 + 2 = 27; the code
replies 35 — the raw lengths of the actual names user.tagfs.strategy and
user.tagfs.depth with no terminator bytes. -/
theorem listxattr_zero_size_counterexample :
    TagFS.listxattr exampleFS [Component.rootDir] 0 = Xattr.Size 35 ∧
      "tagfs.strategy".length + "tagfs.depth".length + 2 = 27 ∧
      (35 : Nat) ≠ 27 := by
  decide

/-- C7 amended: for every path, `listxattr` with zero buffer size replies with
the sum of the raw byte lengths of the recognized attribute names, which are
user.tagfs.strategy and user.tagfs.depth, with no terminator bytes counted. -/
theorem listxattr_zero_size_amended (path : List Component) :
    exampleFS.attrs.map Prod.fst = ["user.tagfs.strategy", "user.tagfs.depth"] ∧
      TagFS.listxattr exampleFS path 0 =
        Xattr.Size ("user.tagfs.strategy".length + "user.tagfs.depth".length) := by
  exact ⟨rfl, rfl⟩

/-- C8 counterexample: the claim says `getxattr` named tagfs.strategy yields
the value bytes of the string 0 (and value length 1 at zero size); the code's
attribute map keys carry a user. prefix, so the unprefixed name is unknown and
yields an empty buffer and length 0. -/
theorem getxattr_unprefixed_name_counterexample :
    TagFS.getxattr exampleFS [Component.rootDir] "tagfs.strategy" 8 = Xattr.Data [] ∧
      TagFS.getxattr exampleFS [Component.rootDir] "tagfs.strategy" 0 = Xattr.Size 0 ∧
      strBytes "0" = [48] ∧
      Xattr.Data [] ≠ Xattr.Data [48] := by
  decide

/-- C8 amended: for every path and buffer size, `getxattr` named
user.tagfs.strategy returns the value bytes of the string 0 when the size is
nonzero and the value length 1 when it is zero; likewise user.tagfs.depth
yields the string 1. -/
theorem getxattr_prefixed_values (path : List Component) (size : Nat) :
    TagFS.getxattr exampleFS path "user.tagfs.strategy" size =
        (if size = 0 then Xattr.Size 1 else Xattr.Data (strBytes "0")) ∧
      TagFS.getxattr exampleFS path "user.tagfs.depth" size =
        (if size = 0 then Xattr.Size 1 else Xattr.Data (strBytes "1")) := by
  by_cases h : size = 0
  · simp [TagFS.getxattr, lookupAttr, exampleFS, tagfsAttrs, h]
    decide
  · simp [TagFS.getxattr, lookupAttr, exampleFS, tagfsAttrs, h]

/-- C9: every mode whose type bits equal one of the seven known patterns
translates to the corresponding kind (the fatal branch is unreachable), and
the fatal branch (modelled as `none`) is reached exactly when the type bits
match none of the seven patterns. -/
theorem mode_to_filetype_total (mode : Nat) :
    (mode &&& S_IFMT = S_IFDIR →
        TagFS.mode_to_filetype mode = some FileType.Directory) ∧
      (mode &&& S_IFMT = S_IFREG →
        TagFS.mode_to_filetype mode = some FileType.RegularFile) ∧
      (mode &&& S_IFMT = S_IFLNK →
        TagFS.mode_to_filetype mode = some FileType.Symlink) ∧
      (mode &&& S_IFMT = S_IFBLK →
        TagFS.mode_to_filetype mode = some FileType.BlockDevice) ∧
      (mode &&& S_IFMT = S_IFCHR →
        TagFS.mode_to_filetype mode = some FileType.CharDevice) ∧
      (mode &&& S_IFMT = S_IFIFO →
        TagFS.mode_to_filetype mode = some FileType.NamedPipe) ∧
      (mode &&& S_IFMT = S_IFSOCK →
        TagFS.mode_to_filetype mode = some FileType.Socket) ∧
      (TagFS.mode_to_filetype mode = none ↔
        mode &&& S_IFMT ∉ [S_IFDIR, S_IFREG, S_IFLNK, S_IFBLK, S_IFCHR, S_IFIFO, S_IFSOCK]) := by
  simp only [TagFS.mode_to_filetype]
  generalize mode &&& S_IFMT = m
  split_ifs with h1 h2 h3 h4 h5 h6 h7 <;>
    simp_all [S_IFDIR, S_IFREG, S_IFLNK, S_IFBLK, S_IFCHR, S_IFIFO, S_IFSOCK]

/-- C9 witness: a regular-file mode (octal 100644) translates to the
regular-file kind, and a mode with no known type bits (0) hits the fatal
branch. -/
theorem mode_to_filetype_total_witness :
    TagFS.mode_to_filetype 33188 = some FileType.RegularFile ∧
      TagFS.mode_to_filetype 0 = none :=
  ⟨(mode_to_filetype_total 33188).2.1 (by decide),
    ((mode_to_filetype_total 0).2.2.2.2.2.2.2).mpr (by decide)⟩

/-- Byte length of an ASCII string equals its character count. -/
theorem strBytes_length (s : String) : (strBytes s).length = s.length := by
  simp only [strBytes, List.length_map]
  rfl

/-- Length of the single-byte-separator join of a non-empty list of pieces:
the summed piece lengths plus one separator less than the piece count. -/
theorem joinSep_length (xs : List (List Nat)) (h : xs ≠ []) :
    (joinSep xs).length + 1 = (xs.map List.length).sum + xs.length := by
  induction xs with
  | nil => exact absurd rfl h
  | cons x rest ih =>
    cases rest with
    | nil => simp [joinSep]
    | cons y t =>
      have hrec := ih (by simp)
      simp only [joinSep, List.length_append, List.length_cons, List.map_cons,
        List.sum_cons] at hrec ⊢
      omega

/-- C10: for any state, any path and any nonzero buffer size, `listxattr`
returns a data buffer of length equal to the summed attribute-name lengths
plus the attribute count (names joined by one zero byte, plus one trailing
zero byte); when the attribute map is non-empty this strictly exceeds the
zero-size reply, which sums only the raw name lengths. -/
theorem listxattr_data_exceeds_zero_size_probe (fs : TagFS) (path : List Component)
    (size : Nat) (hs : size ≠ 0) (hne : fs.attrs ≠ []) :
    ∃ d, TagFS.listxattr fs path size = Xattr.Data d ∧
      d.length = (fs.attrs.map (fun a => a.fst.length)).sum + fs.attrs.length ∧
      TagFS.listxattr fs path 0 =
        Xattr.Size ((fs.attrs.map (fun a => a.fst.length)).sum) ∧
      (fs.attrs.map (fun a => a.fst.length)).sum < d.length := by
  have hne2 : fs.attrs.map (fun a => strBytes a.fst) ≠ [] := by simpa using hne
  have hlen := joinSep_length (fs.attrs.map (fun a => strBytes a.fst)) hne2
  have hmap : ((fs.attrs.map (fun a => strBytes a.fst)).map List.length).sum
      = (fs.attrs.map (fun a => a.fst.length)).sum := by
    simp [List.map_map, Function.comp_def, strBytes_length]
  have hXlen : (fs.attrs.map (fun a => strBytes a.fst)).length = fs.attrs.length := by
    simp
  have hpos : 0 < fs.attrs.length := List.length_pos.mpr hne
  refine ⟨joinSep (fs.attrs.map (fun a => strBytes a.fst)) ++ [0], ?_, ?_, ?_, ?_⟩
  · simp [TagFS.listxattr, hs]
  · rw [List.length_append]
    simp only [List.length_cons, List.length_nil]
    omega
  · simp [TagFS.listxattr]
  · rw [List.length_append]
    simp only [List.length_cons, List.length_nil]
    omega

/-- C10 witness: on the concrete state the data reply at buffer size one has
37 bytes, strictly more than the 35 reported at buffer size zero. -/
theorem listxattr_data_exceeds_zero_size_probe_witness :
    ∃ d, TagFS.listxattr exampleFS [Component.rootDir] 1 = Xattr.Data d ∧
      d.length = (exampleFS.attrs.map (fun a => a.fst.length)).sum + exampleFS.attrs.length ∧
      TagFS.listxattr exampleFS [Component.rootDir] 0 =
        Xattr.Size ((exampleFS.attrs.map (fun a => a.fst.length)).sum) ∧
      (exampleFS.attrs.map (fun a => a.fst.length)).sum < d.length :=
  listxattr_data_exceeds_zero_size_probe exampleFS [Component.rootDir] 1
    (by decide) (by decide)
